import Mathlib

/-!
Shallow embedding of the display-protocol core of
`src/Application/vortex_gui_qt.py` (Vortex Desk Peripherals V2):
Python strings are embedded as `List Char`, the `time.time()` float
timestamps and float intervals as integer milliseconds (`Int`; the source
only ever compares times and intervals linearly, so the unit change is a
faithful rescaling: 0.9 s = 900, 0.75 s = 750, 1.5 s = 1500), Python ints
as `Int`, and the mutable objects
(`LcdState`, `MatrixState`, the Backend feature flags) as structures with
explicit state passing.  The external `unidecode` transliteration is kept
abstract: every definition that uses `clean_string` takes the
transliteration function `ud : Str → Str` as a parameter, so theorems hold
for every possible behaviour of that library.
-/

/-- Python strings are modelled as lists of characters. -/
abbrev Str := List Char

/-- Python `str.strip` whitespace test, restricted to the ASCII whitespace
characters that can actually occur in this protocol (space, tab, newline,
carriage return, vertical tab, form feed). -/
def pyIsSpace (c : Char) : Bool :=
  c == ' ' || c == '\t' || c == '\n' || c == '\r' || c == '\x0b' || c == '\x0c'

/-- Python `s.strip()`: drop leading and trailing whitespace. -/
def pyStrip (s : Str) : Str :=
  ((s.dropWhile pyIsSpace).reverse.dropWhile pyIsSpace).reverse

/-- Value of one digit character under a given base (Python `int(s, base)`
accepts 0-9, a-z, A-Z as digits as long as the value is below the base). -/
def digitVal (base : Nat) (c : Char) : Option Nat :=
  let v : Option Nat :=
    if '0' ≤ c ∧ c ≤ '9' then some (c.toNat - '0'.toNat)
    else if 'a' ≤ c ∧ c ≤ 'z' then some (c.toNat - 'a'.toNat + 10)
    else if 'A' ≤ c ∧ c ≤ 'Z' then some (c.toNat - 'A'.toNat + 10)
    else none
  match v with
  | some v => if v < base then some v else none
  | none => none

/-- Digit-run parser for Python `int(s, base)` after sign/prefix handling:
digits of the base, with single underscores allowed between digits.
The boolean state records whether the previous character was a digit. -/
def parseDigitsAux (base : Nat) : Str → Nat → Bool → Option Nat
  | [], acc, lastDigit => if lastDigit then some acc else none
  | '_' :: rest, acc, lastDigit =>
      if lastDigit then parseDigitsAux base rest acc false else none
  | c :: rest, acc, _ =>
      match digitVal base c with
      | some v => parseDigitsAux base rest (acc * base + v) true
      | none => none

/-- Optional `0x`/`0X` prefix of a base-16 literal, with Python's optional
single underscore after the prefix. -/
def stripHexPrefix (s : Str) : Str :=
  match s with
  | '0' :: 'x' :: t => match t with | '_' :: u => u | _ => t
  | '0' :: 'X' :: t => match t with | '_' :: u => u | _ => t
  | _ => s

/-- Python `int(s, base)` for base 10 and 16 (the two bases the source
uses): strip whitespace, optional sign, optional hex prefix, digit run;
`none` models the `ValueError` that the source catches. -/
def pyIntCore (base : Nat) (s : Str) : Option Int :=
  let s := pyStrip s
  let signed : Bool × Str :=
    match s with
    | '-' :: t => (true, t)
    | '+' :: t => (false, t)
    | _ => (false, s)
  let body := if base = 16 then stripHexPrefix signed.2 else signed.2
  match parseDigitsAux base body 0 false with
  | some n => some (if signed.1 then -(n : Int) else (n : Int))
  | none => none

/-- Clamp a Python slice index to `[0, len]`, resolving negative indices
relative to the end, as Python slicing does. -/
def pySliceIdx (len : Nat) (i : Int) : Nat :=
  let j := if i < 0 then i + (len : Int) else i
  if j < 0 then 0 else if (len : Int) < j then len else j.toNat

/-- Python slice `s[a:b]` with full negative-index and clamping
semantics. -/
def pySlice (s : Str) (a b : Int) : Str :=
  let lo := pySliceIdx s.length a
  let hi := pySliceIdx s.length b
  (s.take hi).drop lo

/-- Python `s.find(c)`: index of the first occurrence, `-1` if absent. -/
def pyFind (s : Str) (c : Char) : Int :=
  match s.findIdx? (fun x => x == c) with
  | some i => (i : Int)
  | none => -1

/-- Python `body.split("|", 1)` as used by the source (always guarded by
`"|" in body`, so the separator is present in the split branch). -/
def pySplitPipe (body : Str) : Str × Str :=
  (body.takeWhile (fun c => ¬ (c = '|')), ((body.dropWhile (fun c => ¬ (c = '|'))).drop 1))

/-- `clean_string` (vortex_gui_qt.py:183): remove NULs and carriage
returns, map newlines to spaces, transliterate through `unidecode`
(abstract parameter `ud`), keep only printable ASCII 0x20-0x7E, strip. -/
def clean_string (ud : Str → Str) (text : Str) : Str :=
  let replaced :=
    ((text.filter (fun c => ¬ (c = '\x00'))).filter (fun c => ¬ (c = '\r'))).map
      (fun c => if c = '\n' then ' ' else c)
  pyStrip ((ud replaced).filter (fun c => decide (32 ≤ c.toNat ∧ c.toNat ≤ 126)))

/-- Python `s.endswith("\n")`. -/
def pyEndsWithNL (s : Str) : Bool :=
  match s.reverse with
  | [] => false
  | c :: _ => c = '\n'

/-- `SerialLink.send_line` (vortex_gui_qt.py:216), modelled as the payload
actually written to the wire: `none` when the link is closed, otherwise
the sanitized line with the appended terminator.  (The mutex, flush and
audit-log behaviour are I/O effects outside the state modelled here.) -/
def send_line (ud : Str → Str) (isOpen : Bool) (line : Str) : Option Str :=
  if isOpen = true then
    let s := clean_string ud line
    let s := if pyEndsWithNL s = true then s else s ++ ['\n']
    some s
  else none

/-- `pad16` (vortex_gui_qt.py:346): truncate to 16 characters, then
right-pad with spaces to exactly 16 columns. -/
def pad16 (s : Str) : Str :=
  let s := if s.length > 16 then s.take 16 else s
  s ++ List.replicate (16 - s.length) ' '

-- ---------------- Dot matrix state (32x8) ----------------

/-- `MatrixState` (vortex_gui_qt.py:614): mode string, 8x32 pixel grid,
32 column levels, and the decay timestamp (milliseconds, as `Int`). -/
structure MatrixState where
  mode : Str
  pixels : List (List Nat)
  vu_levels : List Nat
  last_decay : Int
deriving DecidableEq

/-- `MatrixState.__init__`, with the construction time passed
explicitly. -/
def MatrixState.init (now : Int) : MatrixState :=
  { mode := "NONE".data
    pixels := List.replicate 8 (List.replicate 32 0)
    vu_levels := List.replicate 32 0
    last_decay := now }

/-- `MatrixState._render_vu_pixels`: the loop writes every cell, so the
grid is rebuilt directly; cell `(7-y, x)` is lit iff `y < levels[x]`. -/
def renderVuPixels (levels : List Nat) : List (List Nat) :=
  (List.range 8).map fun r =>
    (List.range 32).map fun x => if 7 - r < levels.getD x 0 then 1 else 0

/-- `MatrixState.apply_vu` (vortex_gui_qt.py:631): clamp each of the first
32 levels to [0,8], zero-pad to 32, rebuild the pixel grid and reset the
decay timer. -/
def MatrixState.apply_vu (m : MatrixState) (levels : List Int) (now : Int) :
    MatrixState :=
  let lv := (levels.take 32).map (fun v => (max 0 (min 8 v)).toNat)
  let lv := lv ++ List.replicate (32 - (levels.take 32).length) 0
  { m with mode := "VU".data, vu_levels := lv,
           pixels := renderVuPixels lv, last_decay := now }

/-- Python `(row >> (31-x)) & 1` on a (possibly negative) int: Euclidean
division/mod agree with Python's floor semantics for positive divisors. -/
def pyBit (row : Int) (k : Nat) : Int :=
  Int.emod (Int.ediv row ((2 : Int) ^ k)) 2

/-- The row decode of `apply_fb_payload`: the Python list comprehension
`[int(hex_payload[i*8:(i+1)*8], 16) for i in range(8)]` either produces
all eight rows or raises (models as `none`). -/
def decodeFbRows (p : Str) : Option (List Int) :=
  ((List.range 8).map fun i => ((p.drop (i * 8)).take 8)).mapM (pyIntCore 16)

/-- `MatrixState.apply_fb_payload` (vortex_gui_qt.py:637): payloads
shorter than 64 characters are ignored; otherwise the mode becomes FB and
the grid is cleared, then the first 64 characters are decoded as 8 rows of
32 bits (the `except` clause leaves the cleared grid if decoding fails). -/
def MatrixState.apply_fb_payload (m : MatrixState) (p : Str) : MatrixState :=
  if p.length < 8 * 8 then m
  else
    let m := { m with mode := "FB".data,
                      pixels := List.replicate 8 (List.replicate 32 0) }
    match decodeFbRows p with
    | none => m
    | some rows =>
        { m with pixels :=
            (List.range 8).map fun y =>
              (List.range 32).map fun x =>
                if pyBit (rows.getD y 0) (31 - x) ≠ 0 then 1 else 0 }

/-- `MatrixState.tick_decay` (vortex_gui_qt.py:652): only acts in VU mode;
an enabled feed just refreshes the timer; once `step_ms` has elapsed every
nonzero column level decays by one and the grid is re-rendered.  With
times in milliseconds the source's `(now - last_decay) * 1000.0 < step_ms`
(seconds to milliseconds) is `now - last_decay < step_ms`. -/
def MatrixState.tick_decay (m : MatrixState) (enabled : Bool) (now : Int)
    (step_ms : Int) : MatrixState :=
  if ¬ (m.mode = "VU".data) then m
  else if enabled = true then { m with last_decay := now }
  else if now - m.last_decay < step_ms then m
  else
    let newLevels := m.vu_levels.map (fun v => if 0 < v then v - 1 else v)
    let changed := m.vu_levels.any (fun v => 0 < v)
    let m := { m with last_decay := now, vu_levels := newLevels }
    if changed = true then { m with pixels := renderVuPixels newLevels } else m

-- ---------------- Backend feature-flag state ----------------

/-- The Backend feature flags and worker signal events touched by the
three mode toggles (vortex_gui_qt.py:1037-1060, 1254-1292).  The
`mp.Event` objects are boolean signals (`set`/`clear`). -/
structure Backend where
  CHANNEL_ENABLED : Bool
  AUDIO_MODE_ENABLED : Bool
  LOGO_ENABLED : Bool
  vu_channel_enabled : Bool
  vu_audio_mode_enabled : Bool
  vu_rebind : Bool
deriving DecidableEq

/-- `Backend.toggle_channel_mode` (vortex_gui_qt.py:1254); the
`send_to_device` calls are transport I/O outside this state. -/
def Backend.toggle_channel_mode (b : Backend) : Backend :=
  let b := { b with CHANNEL_ENABLED := !b.CHANNEL_ENABLED }
  if b.CHANNEL_ENABLED = true then
    { b with LOGO_ENABLED := false, AUDIO_MODE_ENABLED := false,
             vu_audio_mode_enabled := false,
             vu_channel_enabled := true, vu_rebind := true }
  else { b with vu_channel_enabled := false }

/-- `Backend.toggle_audio_mode` (vortex_gui_qt.py:1268). -/
def Backend.toggle_audio_mode (b : Backend) : Backend :=
  let b := { b with AUDIO_MODE_ENABLED := !b.AUDIO_MODE_ENABLED }
  if b.AUDIO_MODE_ENABLED = true then
    { b with LOGO_ENABLED := false, CHANNEL_ENABLED := false,
             vu_channel_enabled := false,
             vu_audio_mode_enabled := true, vu_rebind := true }
  else { b with vu_audio_mode_enabled := false }

/-- `Backend.toggle_logo_mode` (vortex_gui_qt.py:1282). -/
def Backend.toggle_logo_mode (b : Backend) : Backend :=
  let b := { b with LOGO_ENABLED := !b.LOGO_ENABLED }
  if b.LOGO_ENABLED = true then
    { b with CHANNEL_ENABLED := false, AUDIO_MODE_ENABLED := false,
             vu_channel_enabled := false, vu_audio_mode_enabled := false }
  else b

/-- One of the three mutually exclusive mode toggles. -/
inductive ToggleOp where
  | channel
  | audio
  | logo
deriving DecidableEq

/-- Dispatch one toggle call. -/
def applyToggle : ToggleOp → Backend → Backend
  | ToggleOp.channel, b => b.toggle_channel_mode
  | ToggleOp.audio, b => b.toggle_audio_mode
  | ToggleOp.logo, b => b.toggle_logo_mode

/-- Run a sequence of toggle calls, first element first. -/
def runToggles : List ToggleOp → Backend → Backend
  | [], b => b
  | op :: rest, b => runToggles rest (applyToggle op b)

/-- Pairwise mutual exclusion of the three feature flags (at most one of
`CHANNEL_ENABLED`, `AUDIO_MODE_ENABLED`, `LOGO_ENABLED` is set). -/
def mutexInv (b : Backend) : Bool :=
  !(b.CHANNEL_ENABLED && b.AUDIO_MODE_ENABLED) &&
  !(b.CHANNEL_ENABLED && b.LOGO_ENABLED) &&
  !(b.AUDIO_MODE_ENABLED && b.LOGO_ENABLED)

-- ---------------- LCD emulator (16x2 HD44780-ish) ----------------

/-- `_VISIT_BAR_CHARS` (vortex_gui_qt.py:324): the 8-step fill-bar glyph
bank installed for VISIT mode. -/
def visitBarBank : List (List Nat) :=
  [[0, 0, 0, 0, 0, 0, 0, 0],
   [0, 0, 0, 0, 0, 0, 0, 31],
   [0, 0, 0, 0, 0, 0, 31, 31],
   [0, 0, 0, 0, 0, 31, 31, 31],
   [0, 0, 0, 0, 31, 31, 31, 31],
   [0, 0, 0, 31, 31, 31, 31, 31],
   [0, 0, 31, 31, 31, 31, 31, 31],
   [0, 31, 31, 31, 31, 31, 31, 31]]

/-- The glyph bank after zeroing all 8 slots and installing
`_MUSIC_ICONS` (vortex_gui_qt.py:334) in slots 0-3, as both `enter_music`
and the `VOL:` handler do. -/
def musicIconBank : List (List Nat) :=
  [[0b00000, 0b00111, 0b01101, 0b01001, 0b01011, 0b11011, 0b11000, 0b00000],
   [0b00000, 0b01000, 0b01100, 0b01110, 0b01110, 0b01100, 0b01000, 0b00000],
   [0b00000, 0b00001, 0b00101, 0b10101, 0b10101, 0b10101, 0b00000, 0b00000],
   [0b00000, 0b00010, 0b00110, 0b11110, 0b11110, 0b00110, 0b00010, 0b00000]]
  ++ List.replicate 4 (List.replicate 8 0)

/-- The glyph bank after zeroing all 8 slots and installing
`_SYSTEM_ICONS` (vortex_gui_qt.py:340) in slots 0-2. -/
def systemIconBank : List (List Nat) :=
  [[0b00000, 0b01010, 0b11111, 0b01110, 0b11111, 0b01010, 0b00000, 0b00000],
   [0b00000, 0b11111, 0b11111, 0b11111, 0b00100, 0b01110, 0b00000, 0b00000],
   [0b00000, 0b00000, 0b11111, 0b11111, 0b11111, 0b10101, 0b00000, 0b00000]]
  ++ List.replicate 5 (List.replicate 8 0)

/-- `LcdState` (vortex_gui_qt.py:352): 2x16 character grid of byte codes,
glyph bank (dict over keys 0-7, modelled as an 8-element list), animation
and scroll bookkeeping, volume-overlay flag and deadline, and the cached
visit counters.  Times are integer milliseconds. -/
structure LcdState where
  mode : Str
  ddram : List (List Nat)
  cgram : List (List Nat)
  visit_anim_active : Bool
  box_step : Nat
  last_anim : Int
  anim_interval : Int
  scroll_top : Str
  scroll_bottom : Str
  scroll_i_top : Nat
  scroll_i_bottom : Nat
  last_scroll : Int
  scroll_interval : Int
  volume_overlay : Bool
  vol_until : Int
  last_visit_astro : Int
  last_visit_core : Int
deriving DecidableEq

/-- `LcdState.__init__` (vortex_gui_qt.py:353). -/
def LcdState.init : LcdState :=
  { mode := "VISIT".data
    ddram := [List.replicate 16 0x20, List.replicate 16 0x20]
    cgram := visitBarBank
    visit_anim_active := false
    box_step := 0
    last_anim := 0
    anim_interval := 900
    scroll_top := []
    scroll_bottom := []
    scroll_i_top := 0
    scroll_i_bottom := 0
    last_scroll := 0
    scroll_interval := 750
    volume_overlay := false
    vol_until := 0
    last_visit_astro := 0
    last_visit_core := 0 }

/-- `LcdState.clear` (vortex_gui_qt.py:380). -/
def LcdState.clear (s : LcdState) : LcdState :=
  { s with ddram := [List.replicate 16 0x20, List.replicate 16 0x20] }

/-- One assignment `self.ddram[r][i] = v`. -/
def setDdram (s : LcdState) (r i v : Nat) : LcdState :=
  { s with ddram := s.ddram.set r ((s.ddram.getD r []).set i v) }

/-- `LcdState.write_line` (vortex_gui_qt.py:442): the loop writes all 16
cells of the row, so the row is replaced wholesale. -/
def LcdState.write_line (s : LcdState) (row : Nat) (text16 : Str) : LcdState :=
  let t := pad16 text16
  { s with ddram := s.ddram.set row ((t.take 16).map Char.toNat) }

/-- The 16 byte codes produced by `write_icon_prefix_line`: glyph code,
space, then the text truncated/padded to 14 characters. -/
def iconRow (icon : Nat) (text : Str) : List Nat :=
  let t := text.take 14
  let t := t ++ List.replicate (14 - t.length) ' '
  (icon &&& 0xFF) :: ' '.toNat :: t.map Char.toNat

/-- `LcdState.write_icon_prefix_line` (vortex_gui_qt.py:447): writes cell
0 (icon), cell 1 (space) and cells 2-15 (14 text chars) — the full row. -/
def LcdState.write_icon_prefix_line (s : LcdState) (row icon : Nat)
    (text : Str) : LcdState :=
  { s with ddram := s.ddram.set row (iconRow icon text) }

/-- `LcdState.draw_visit_header_counts` (vortex_gui_qt.py:391): cache the
counters, write the header on row 0, the `ARI:<a> CC:<c>` text padded to
15 columns on row 1, and the animation glyph code in column 15. -/
def LcdState.draw_visit_header_counts (s : LcdState) (astro core : Int) :
    LcdState :=
  let s := { s with last_visit_astro := astro, last_visit_core := core }
  let top := pad16 "Live Visit Count".data
  let b := "ARI:".data ++ (toString astro).data ++ " CC:".data
             ++ (toString core).data
  let b := if b.length > 15 then b.take 15 else b
  let bottom15 := b ++ List.replicate (15 - b.length) ' '
  let s := s.write_line 0 top
  { s with ddram := s.ddram.set 1 (bottom15.map Char.toNat ++ [s.box_step]) }

/-- `LcdState.enter_visit` (vortex_gui_qt.py:383). -/
def LcdState.enter_visit (s : LcdState) : LcdState :=
  let s := { s with mode := "VISIT".data }
  let s := s.clear
  let s := { s with cgram := visitBarBank, visit_anim_active := false,
                    box_step := 0 }
  s.draw_visit_header_counts 0 0

/-- `LcdState.enter_music` (vortex_gui_qt.py:404). -/
def LcdState.enter_music (s : LcdState) : LcdState :=
  let s := { s with mode := "MUSIC".data }
  let s := s.clear
  let s := { s with cgram := musicIconBank }
  let s := s.write_icon_prefix_line 0 0 "Music Mode".data
  s.write_icon_prefix_line 1 1 "Loading...".data

/-- `LcdState.enter_clock` (vortex_gui_qt.py:414). -/
def LcdState.enter_clock (s : LcdState) : LcdState :=
  let s := { s with mode := "CLOCK".data }
  let s := s.clear
  let s := s.write_line 0 (pad16 "Clock Mode".data)
  s.write_line 1 (pad16 "Loading...".data)

/-- `LcdState.enter_text` (vortex_gui_qt.py:420). -/
def LcdState.enter_text (s : LcdState) : LcdState :=
  let s := { s with mode := "TEXT".data }
  let s := s.clear
  let s := s.write_line 0 (pad16 "Text Mode".data)
  s.write_line 1 (pad16 "Loading...".data)

/-- `LcdState.enter_system` (vortex_gui_qt.py:426). -/
def LcdState.enter_system (s : LcdState) : LcdState :=
  let s := { s with mode := "SYSTEM".data }
  let s := s.clear
  let s := { s with cgram := systemIconBank }
  let s := s.write_icon_prefix_line 0 0 "System Mode".data
  s.write_icon_prefix_line 1 2 "Loading...".data

/-- `LcdState.enter_screen` (vortex_gui_qt.py:436). -/
def LcdState.enter_screen (s : LcdState) : LcdState :=
  let s := { s with mode := "SCREEN".data }
  let s := s.clear
  let s := s.write_line 0 (pad16 "Screen Mirror".data)
  s.write_line 1 (pad16 "Running".data)

/-- `LcdState.set_mode_by_num` (vortex_gui_qt.py:372): values outside
{1,3,4,5,7,8} are ignored. -/
def LcdState.set_mode_by_num (s : LcdState) (m : Int) : LcdState :=
  if m = 1 then s.enter_visit
  else if m = 3 then s.enter_music
  else if m = 4 then s.enter_clock
  else if m = 5 then s.enter_text
  else if m = 7 then s.enter_system
  else if m = 8 then s.enter_screen
  else s

/-- `LcdState.scroll_text_line_icon` (vortex_gui_qt.py:457).  The Python
code reads and writes the per-line cursor through `getattr`/`setattr`;
here the cursor value is passed in and the new cursor is returned. -/
def LcdState.scroll_text_line_icon (s : LcdState) (row : Nat) (text : Str)
    (idx : Nat) (icon : Nat) : LcdState × Nat :=
  let avail := 14
  if text.length ≤ avail then (s.write_icon_prefix_line row icon text, 0)
  else
    let buf := text ++ "    ".data
    let pos := idx % buf.length
    let seg := (List.range avail).map fun i => buf.getD ((pos + i) % buf.length) ' '
    (s.write_icon_prefix_line row icon seg, idx + 1)

/-- `LcdState.handle_cmd` (vortex_gui_qt.py:471) after the initial
`cmd.strip()`; `now` is the value of `time.time()` during the call.  All
`except: pass` clauses correspond to the parse functions returning
`none`. -/
def LcdState.handle_cmd_stripped (ud : Str → Str) (now : Int) (s : LcdState)
    (cmd : Str) : LcdState :=
  if "MODE:".data.isPrefixOf cmd = true then
    match pyIntCore 10 (cmd.drop 5) with
    | some m => s.set_mode_by_num m
    | none => s
  else if "LIVE:".data.isPrefixOf cmd = true then
    let comma := pyFind cmd ','
    match pyIntCore 10 (pySlice cmd 5 comma),
          pyIntCore 10 (cmd.drop (comma + 1).toNat) with
    | some astro, some core =>
        if s.mode = "VISIT".data then
          let s := s.draw_visit_header_counts astro core
          let s := { s with box_step := 0, visit_anim_active := true,
                            last_anim := now }
          setDdram s 1 15 s.box_step
        else s
    | _, _ => s
  else if "CLOCK:".data.isPrefixOf cmd = true then
    let body := cmd.drop 6
    let p := if '|' ∈ body then pySplitPipe body else (body, [])
    let top := pad16 (clean_string ud p.1)
    let bottom := pad16 (clean_string ud p.2)
    if s.mode = "CLOCK".data then (s.write_line 0 top).write_line 1 bottom
    else s
  else if "MUSIC:".data.isPrefixOf cmd = true then
    let body := cmd.drop 6
    let p := if '|' ∈ body then pySplitPipe body else (body, [])
    let top0 := clean_string ud p.1
    let top := if top0 = [] then "Unknown Title".data else top0
    let bottom0 := clean_string ud p.2
    let bottom := if bottom0 = [] then "Unknown Artist".data else bottom0
    let s := { s with scroll_top := top, scroll_bottom := bottom,
                      scroll_i_top := 0, scroll_i_bottom := 0,
                      last_scroll := now }
    if s.mode = "MUSIC".data ∧ s.volume_overlay = false then
      (s.write_icon_prefix_line 0 0 (top.take 15)).write_icon_prefix_line
        1 1 (bottom.take 15)
    else s
  else if "TEXT:".data.isPrefixOf cmd = true then
    let txt := clean_string ud (cmd.drop 5)
    if s.mode = "TEXT".data then
      let top := pad16 (txt.take 16)
      let bottom := if txt.length > 16 then pad16 (pySlice txt 16 32)
                    else pad16 []
      (s.write_line 0 top).write_line 1 bottom
    else s
  else if "VOL:".data.isPrefixOf cmd = true then
    let body := cmd.drop 4
    let p := if '|' ∈ body then pySplitPipe body else (pyStrip body, [])
    let pct := clean_string ud p.1
    let dev := clean_string ud p.2
    let s := { s with cgram := musicIconBank, volume_overlay := true,
                      vol_until := now + 1500 }
    let line0 := "Volume: ".data ++ pct
    let line1 := dev
    (s.write_icon_prefix_line 0 2 line0).write_icon_prefix_line 1 3 line1
  else s

/-- `LcdState.handle_cmd`: the source strips the raw command first. -/
def LcdState.handle_cmd (ud : Str → Str) (now : Int) (s : LcdState)
    (cmd0 : Str) : LcdState :=
  LcdState.handle_cmd_stripped ud now s (pyStrip cmd0)

/-- The first block of `LcdState.tick` (vortex_gui_qt.py:574-595):
volume-overlay expiry with per-mode restoration.  The Python float
truthiness test `self._vol_until` is the `vol_until ≠ 0` conjunct. -/
def LcdState.tick_overlay (s : LcdState) (now : Int) : LcdState :=
  if s.volume_overlay = true ∧ ¬ s.vol_until = 0 ∧ s.vol_until ≤ now then
    let s := { s with volume_overlay := false }
    if s.mode = "VISIT".data then
      let s := { s with cgram := visitBarBank }
      let s := s.draw_visit_header_counts s.last_visit_astro
                 s.last_visit_core
      setDdram s 1 15 s.box_step
    else if s.mode = "MUSIC".data then
      let s := { s with cgram := musicIconBank }
      let s := s.write_icon_prefix_line 0 0 (s.scroll_top.take 14)
      let s := s.write_icon_prefix_line 1 1 (s.scroll_bottom.take 14)
      { s with last_scroll := now }
    else if s.mode = "SYSTEM".data then
      { s with cgram := systemIconBank }
    else s
  else s

/-- The second block of `LcdState.tick` (vortex_gui_qt.py:597-604): the
VISIT fill animation. -/
def LcdState.tick_anim (s : LcdState) (now : Int) : LcdState :=
  if s.mode = "VISIT".data ∧ s.visit_anim_active = true then
    if s.anim_interval ≤ now - s.last_anim then
      let s := setDdram s 1 15 s.box_step
      if s.box_step < 7 then
        { s with box_step := s.box_step + 1, last_anim := now }
      else { s with visit_anim_active := false }
    else s
  else s

/-- The third block of `LcdState.tick` (vortex_gui_qt.py:606-610): MUSIC
scrolling when no overlay is active. -/
def LcdState.tick_scroll (s : LcdState) (now : Int) : LcdState :=
  if s.mode = "MUSIC".data ∧ s.volume_overlay = false then
    if s.scroll_interval ≤ now - s.last_scroll then
      let r0 := s.scroll_text_line_icon 0 s.scroll_top s.scroll_i_top 0
      let s := { r0.1 with scroll_i_top := r0.2 }
      let r1 := s.scroll_text_line_icon 1 s.scroll_bottom s.scroll_i_bottom 1
      let s := { r1.1 with scroll_i_bottom := r1.2 }
      { s with last_scroll := now }
    else s
  else s

/-- `LcdState.tick` (vortex_gui_qt.py:571): the three blocks run in
sequence on the same object. -/
def LcdState.tick (s : LcdState) (now : Int) : LcdState :=
  ((s.tick_overlay now).tick_anim now).tick_scroll now

/-- The cached title of a `MUSIC:<body>` command: the sanitized text
before the first `|` separator, with the `Unknown Title` fallback for an
empty result. -/
def sanitizedTitle (ud : Str → Str) (body : Str) : Str :=
  let p := if '|' ∈ body then pySplitPipe body else (body, [])
  let t := clean_string ud p.1
  if t = [] then "Unknown Title".data else t

/-- The cached artist of a `MUSIC:<body>` command. -/
def sanitizedArtist (ud : Str → Str) (body : Str) : Str :=
  let p := if '|' ∈ body then pySplitPipe body else (body, [])
  let t := clean_string ud p.2
  if t = [] then "Unknown Artist".data else t

/-- The sanitized `(percent, device)` parts of a `VOL:<body>` command. -/
def volParts (ud : Str → Str) (body : Str) : Str × Str :=
  let p := if '|' ∈ body then pySplitPipe body else (pyStrip body, [])
  (clean_string ud p.1, clean_string ud p.2)

-- ---------------- Theorems ----------------

theorem mutexInv_applyToggle (op : ToggleOp) (b : Backend)
    (h : mutexInv b = true) : mutexInv (applyToggle op b) = true := by
  rcases b with ⟨c, a, l, w₁, w₂, w₃⟩
  revert h
  cases op <;> cases c <;> cases a <;> cases l <;>
    cases w₁ <;> cases w₂ <;> cases w₃ <;> decide

theorem mutexInv_runToggles (ops : List ToggleOp) (b : Backend)
    (h : mutexInv b = true) : mutexInv (runToggles ops b) = true := by
  induction ops generalizing b with
  | nil => exact h
  | cons op rest ih => exact ih _ (mutexInv_applyToggle op b h)

-- ---------------- Claim theorems (matrix / backend / transport) ----------------

/-- C5: starting from any Backend state in which at most one of the three
mode flags is set, every sequence of `toggle_channel_mode`,
`toggle_audio_mode` and `toggle_logo_mode` calls preserves pairwise
mutual exclusion; moreover each toggle that enables its flag clears the
other two. -/
theorem backend_toggles_mutually_exclusive (b : Backend)
    (h : mutexInv b = true) :
    (∀ ops : List ToggleOp, mutexInv (runToggles ops b) = true) ∧
    (b.CHANNEL_ENABLED = false →
      (b.toggle_channel_mode.CHANNEL_ENABLED = true ∧
       b.toggle_channel_mode.AUDIO_MODE_ENABLED = false ∧
       b.toggle_channel_mode.LOGO_ENABLED = false)) ∧
    (b.AUDIO_MODE_ENABLED = false →
      (b.toggle_audio_mode.AUDIO_MODE_ENABLED = true ∧
       b.toggle_audio_mode.CHANNEL_ENABLED = false ∧
       b.toggle_audio_mode.LOGO_ENABLED = false)) ∧
    (b.LOGO_ENABLED = false →
      (b.toggle_logo_mode.LOGO_ENABLED = true ∧
       b.toggle_logo_mode.CHANNEL_ENABLED = false ∧
       b.toggle_logo_mode.AUDIO_MODE_ENABLED = false)) := by
  refine ⟨fun ops => mutexInv_runToggles ops b h, ?_, ?_, ?_⟩ <;>
    · rcases b with ⟨c, a, l, w₁, w₂, w₃⟩
      revert h
      cases c <;> cases a <;> cases l <;>
        cases w₁ <;> cases w₂ <;> cases w₃ <;> decide

/-- Witness for C5 at a concrete state and toggle sequence. -/
theorem backend_toggles_mutually_exclusive_witness :
    mutexInv ⟨false, false, false, false, false, false⟩ = true ∧
    mutexInv (runToggles [ToggleOp.channel, ToggleOp.audio, ToggleOp.logo]
      ⟨false, false, false, false, false, false⟩) = true :=
  ⟨by decide,
   (backend_toggles_mutually_exclusive _ (by decide)).1
     [ToggleOp.channel, ToggleOp.audio, ToggleOp.logo]⟩

/-- C9: `pad16` always returns exactly 16 characters, truncating inputs
longer than 16 and right-padding shorter ones with spaces, and it is
idempotent. -/
theorem pad16_spec (s : Str) :
    (pad16 s).length = 16 ∧
    (s.length > 16 → pad16 s = s.take 16) ∧
    (s.length ≤ 16 → pad16 s = s ++ List.replicate (16 - s.length) ' ') ∧
    pad16 (pad16 s) = pad16 s := by
  have hlen : ∀ t : Str, (pad16 t).length = 16 := by
    intro t
    simp only [pad16, List.length_append, List.length_replicate]
    split_ifs with h
    · simp only [List.length_take]
      omega
    · omega
  have hpadle : ∀ t : Str, t.length ≤ 16 →
      pad16 t = t ++ List.replicate (16 - t.length) ' ' := by
    intro t ht
    simp only [pad16]
    rw [if_neg (by omega)]
  refine ⟨hlen s, ?_, hpadle s, ?_⟩
  · intro h
    simp only [pad16]
    rw [if_pos h]
    have : (s.take 16).length = 16 := by
      simp only [List.length_take]
      omega
    rw [this]
    simp
  · rw [hpadle (pad16 s) (by rw [hlen])]
    rw [hlen]
    simp

/-- Witness for C9 covering both the truncation and the padding case. -/
theorem pad16_spec_witness :
    pad16 "abcdefghijklmnopq".data = "abcdefghijklmnopq".data.take 16 ∧
    pad16 "ab".data = "ab".data ++ List.replicate 14 ' ' :=
  ⟨(pad16_spec "abcdefghijklmnopq".data).2.1 (by decide),
   (pad16_spec "ab".data).2.2.1 (by decide)⟩

/-- C1 counterexample: the claim says every payload that is not a
well-formed 64-hex-character frame (here: 64 characters, but all `'G'`,
which is not a hex digit) leaves the matrix unchanged; in fact the code
sets the mode to FB (and clears the pixels) before decoding fails. -/
theorem apply_fb_payload_malformed_mutates :
    MatrixState.apply_fb_payload (MatrixState.init 0)
        (List.replicate 64 'G') ≠ MatrixState.init 0 := by
  decide

/-- C1 (amended): payloads shorter than 64 characters leave the matrix
unchanged; the all-`F` 64-character payload lights every pixel; a payload
of length at least 64 whose first 64 characters fail to decode as 8 hex
rows leaves the mode set to FB and the pixel grid cleared. -/
theorem apply_fb_payload_spec :
    (∀ (m : MatrixState) (p : Str), p.length < 64 →
        MatrixState.apply_fb_payload m p = m) ∧
    (∀ m : MatrixState,
        (MatrixState.apply_fb_payload m (List.replicate 64 'F')).pixels =
          List.replicate 8 (List.replicate 32 1) ∧
        (MatrixState.apply_fb_payload m (List.replicate 64 'F')).mode =
          "FB".data ∧
        (MatrixState.apply_fb_payload m (List.replicate 64 'F')).vu_levels =
          m.vu_levels) ∧
    (∀ (m : MatrixState) (p : Str), ¬ p.length < 64 →
        decodeFbRows p = none →
        MatrixState.apply_fb_payload m p =
          { m with mode := "FB".data,
                   pixels := List.replicate 8 (List.replicate 32 0) }) := by
  refine ⟨?_, ?_, ?_⟩
  · intro m p h
    simp [MatrixState.apply_fb_payload, h]
  · intro m
    refine ⟨?_, ?_, ?_⟩ <;>
      simp only [MatrixState.apply_fb_payload] <;> rfl
  · intro m p h hdec
    simp [MatrixState.apply_fb_payload, h, hdec]

/-- Witness for C1 (amended): a short payload, the all-`F` frame, and a
64-character non-hex payload, all at the initial matrix state. -/
theorem apply_fb_payload_spec_witness :
    MatrixState.apply_fb_payload (MatrixState.init 0) "FF".data =
      MatrixState.init 0 ∧
    (MatrixState.apply_fb_payload (MatrixState.init 0)
        (List.replicate 64 'F')).pixels =
      List.replicate 8 (List.replicate 32 1) ∧
    MatrixState.apply_fb_payload (MatrixState.init 0)
        (List.replicate 64 'G') =
      { MatrixState.init 0 with
          mode := "FB".data,
          pixels := List.replicate 8 (List.replicate 32 0) } :=
  ⟨apply_fb_payload_spec.1 (MatrixState.init 0) "FF".data (by decide),
   (apply_fb_payload_spec.2.1 (MatrixState.init 0)).1,
   apply_fb_payload_spec.2.2 (MatrixState.init 0) (List.replicate 64 'G')
     (by decide) (by decide)⟩

/-- C7: after `apply_vu` with all levels 8, one `tick_decay` with the feed
disabled whose step interval has elapsed lowers every column level to 7
and re-renders the pixels; and `tick_decay` with the feed enabled never
changes `vu_levels`. -/
theorem tick_decay_spec :
    (∀ (m : MatrixState) (t now sm : Int),
        ¬ now - t < sm →
        (MatrixState.tick_decay
            (MatrixState.apply_vu m (List.replicate 32 (8 : Int)) t)
            false now sm).vu_levels = List.replicate 32 7 ∧
        (MatrixState.tick_decay
            (MatrixState.apply_vu m (List.replicate 32 (8 : Int)) t)
            false now sm).pixels = renderVuPixels (List.replicate 32 7)) ∧
    (∀ (m : MatrixState) (now sm : Int),
        (MatrixState.tick_decay m true now sm).vu_levels = m.vu_levels) := by
  constructor
  · intro m t now sm h
    have hlv : (MatrixState.apply_vu m (List.replicate 32 (8 : Int)) t).vu_levels
        = List.replicate 32 8 := by
      simp [MatrixState.apply_vu]
    have hmode : (MatrixState.apply_vu m (List.replicate 32 (8 : Int)) t).mode
        = "VU".data := rfl
    have hld : (MatrixState.apply_vu m (List.replicate 32 (8 : Int)) t).last_decay
        = t := rfl
    simp only [MatrixState.tick_decay, hmode, hld, hlv]
    rw [if_neg (by simp), if_neg (by simp), if_neg h,
        if_pos (by decide)]
    constructor <;> · simp only [List.map_replicate]; norm_num
  · intro m now sm
    simp only [MatrixState.tick_decay]
    split
    · rfl
    · simp

/-- Witness for C7 at the initial state, `t = 0`, `now = 100` ms,
`step_ms = 90`. -/
theorem tick_decay_spec_witness :
    ¬ ((100 : Int) - 0 < 90) ∧
    (MatrixState.tick_decay
        (MatrixState.apply_vu (MatrixState.init 0)
          (List.replicate 32 (8 : Int)) 0) false 100 90).vu_levels =
      List.replicate 32 7 :=
  ⟨by decide,
   (tick_decay_spec.1 (MatrixState.init 0) 0 100 90 (by decide)).1⟩

-- ---------------- Serial transport claim ----------------

theorem pyStrip_subset {s : Str} {c : Char} (h : c ∈ pyStrip s) : c ∈ s := by
  simp only [pyStrip] at h
  have h1 := List.mem_reverse.mp h
  have h2 := (List.dropWhile_sublist _).subset h1
  have h3 := List.mem_reverse.mp h2
  exact (List.dropWhile_sublist _).subset h3

theorem clean_string_range {ud : Str → Str} {t : Str} {c : Char}
    (h : c ∈ clean_string ud t) : 32 ≤ c.toNat ∧ c.toNat ≤ 126 := by
  simp only [clean_string] at h
  have h1 := pyStrip_subset h
  exact of_decide_eq_true (List.mem_filter.mp h1).2

theorem clean_string_no_newline_end {ud : Str → Str} {t : Str} :
    pyEndsWithNL (clean_string ud t) = false := by
  unfold pyEndsWithNL
  split
  · rfl
  next c rest heq =>
    have hc : c ∈ clean_string ud t := by
      rw [← List.mem_reverse, heq]
      exact List.mem_cons_self _ _
    have hr := (clean_string_range hc).1
    simp only [decide_eq_false_iff_not]
    intro h'
    subst h'
    exact absurd hr (by decide)

/-- C6: for every input string, when the link is open `send_line` writes a
payload made only of printable ASCII 0x20-0x7E followed by exactly one
terminating newline — no NUL, no carriage return, no interior newline —
and writes nothing when the link is closed. -/
theorem send_line_wire_format (ud : Str → Str) (line : Str) :
    ∃ body : Str,
      send_line ud true line = some (body ++ ['\n']) ∧
      (∀ c ∈ body, 32 ≤ c.toNat ∧ c.toNat ≤ 126) ∧
      '\x00' ∉ body ∧ '\r' ∉ body ∧ '\n' ∉ body ∧
      send_line ud false line = none := by
  refine ⟨clean_string ud line, ?_, fun c hc => clean_string_range hc,
          ?_, ?_, ?_, rfl⟩
  · simp only [send_line, if_pos rfl, clean_string_no_newline_end]
    simp
  · intro h
    exact absurd (clean_string_range h).1 (by decide)
  · intro h
    exact absurd (clean_string_range h).1 (by decide)
  · intro h
    exact absurd (clean_string_range h).1 (by decide)

/-- Witness for C6 at the identity transliteration and a concrete line. -/
theorem send_line_wire_format_witness :
    ∃ body : Str,
      send_line (fun s => s) true "MODE:1".data = some (body ++ ['\n']) ∧
      (∀ c ∈ body, 32 ≤ c.toNat ∧ c.toNat ≤ 126) ∧
      '\x00' ∉ body ∧ '\r' ∉ body ∧ '\n' ∉ body ∧
      send_line (fun s => s) false "MODE:1".data = none :=
  send_line_wire_format (fun s => s) "MODE:1".data

-- ---------------- helper lemmas for the LCD theorems ----------------

theorem isPrefixOf_append_self (p t : Str) : p.isPrefixOf (p ++ t) = true := by
  induction p with
  | nil => cases t <;> rfl
  | cons a as ih => simp [List.isPrefixOf, ih]

theorem isPrefixOf_exists {l₁ l₂ : Str} (h : l₁.isPrefixOf l₂ = true) :
    ∃ t, l₂ = l₁ ++ t := by
  induction l₁ generalizing l₂ with
  | nil => exact ⟨l₂, rfl⟩
  | cons a as ih =>
    cases l₂ with
    | nil => simp [List.isPrefixOf] at h
    | cons b bs =>
      simp only [List.isPrefixOf, Bool.and_eq_true, beq_iff_eq] at h
      obtain ⟨rfl, h2⟩ := h
      obtain ⟨t, rfl⟩ := ih h2
      exact ⟨t, rfl⟩

theorem getD_set_self {α : Type} (l : List α) (i : Nat) (x d : α)
    (h : i < l.length) : (l.set i x).getD i d = x := by
  induction l generalizing i with
  | nil => simp at h
  | cons a t ih =>
    cases i with
    | zero => rfl
    | succ i => exact ih i (by simpa using h)

theorem getD_set_ne {α : Type} (l : List α) (i j : Nat) (x d : α)
    (h : ¬ j = i) : (l.set j x).getD i d = l.getD i d := by
  induction l generalizing i j with
  | nil => rfl
  | cons a t ih =>
    cases j with
    | zero =>
      cases i with
      | zero => exact absurd rfl h
      | succ i => rfl
    | succ j =>
      cases i with
      | zero => rfl
      | succ i => exact ih i j (fun he => h (by rw [he]))

theorem fourSpaces : ("    ".data : Str) = [' ', ' ', ' ', ' '] := rfl

-- ---------------- Claim theorems (LCD) ----------------

/-- C8: `scroll_text_line_icon` renders a string of at most 14 characters
statically (icon prefix, text padded to 14) and resets the cursor to 0;
for a longer string it renders the 14-character circular window of the
string padded with 4 trailing spaces, starting at `cursor mod (len+4)`,
and increments the cursor by one. -/
theorem scroll_text_line_icon_spec (s : LcdState) (row : Nat) (text : Str)
    (idx : Nat) (icon : Nat) (hrow : row < s.ddram.length) :
    (text.length ≤ 14 →
      (s.scroll_text_line_icon row text idx icon).1.ddram.getD row [] =
          iconRow icon text ∧
      (s.scroll_text_line_icon row text idx icon).2 = 0) ∧
    (14 < text.length →
      (s.scroll_text_line_icon row text idx icon).1.ddram.getD row [] =
          iconRow icon ((List.range 14).map fun i =>
            (text ++ "    ".data).getD
              ((idx % (text.length + 4) + i) % (text.length + 4)) ' ') ∧
      (s.scroll_text_line_icon row text idx icon).2 = idx + 1) := by
  have hbuf : (text ++ "    ".data).length = text.length + 4 := by
    simp [fourSpaces]
  constructor
  · intro h
    simp only [LcdState.scroll_text_line_icon, if_pos h,
               LcdState.write_icon_prefix_line]
    exact ⟨getD_set_self _ _ _ _ hrow, trivial⟩
  · intro h
    have hnot : ¬ text.length ≤ 14 := by omega
    simp only [LcdState.scroll_text_line_icon, if_neg hnot,
               LcdState.write_icon_prefix_line]
    refine ⟨?_, trivial⟩
    rw [getD_set_self _ _ _ _ hrow, hbuf]

/-- Witness for C8: a short and a long string at the initial state. -/
theorem scroll_text_line_icon_spec_witness :
    ((LcdState.init.scroll_text_line_icon 0 "Hi".data 5 0).1.ddram.getD 0 [] =
        iconRow 0 "Hi".data ∧
     (LcdState.init.scroll_text_line_icon 0 "Hi".data 5 0).2 = 0) ∧
    ((LcdState.init.scroll_text_line_icon 0 "ABCDEFGHIJKLMNOP".data 3
         1).1.ddram.getD 0 [] =
        iconRow 1 ((List.range 14).map fun i =>
          ("ABCDEFGHIJKLMNOP".data ++ "    ".data).getD
            ((3 % (("ABCDEFGHIJKLMNOP".data : Str).length + 4) + i) %
              (("ABCDEFGHIJKLMNOP".data : Str).length + 4)) ' ') ∧
     (LcdState.init.scroll_text_line_icon 0 "ABCDEFGHIJKLMNOP".data 3
         1).2 = 3 + 1) :=
  ⟨(scroll_text_line_icon_spec LcdState.init 0 "Hi".data 5 0
      (by decide)).1 (by decide),
   (scroll_text_line_icon_spec LcdState.init 0 "ABCDEFGHIJKLMNOP".data 3 1
      (by decide)).2 (by decide)⟩

theorem iconRow_take15 (ic : Nat) (t : Str) :
    iconRow ic (t.take 15) = iconRow ic (t.take 14) := by
  simp [iconRow, List.take_take]

/-- C4 counterexample: the claim says `MUSIC:` in MUSIC mode renders the
first 15 characters of the title; with the 15-character title
`ABCDEFGHIJKLMNO` the 15th character `'O'` (byte 79) is rendered nowhere
(the row holds the icon, a space and only 14 text characters). -/
theorem music_cmd_drops_15th_char :
    ((LcdState.init.handle_cmd (fun s => s) 0 "MODE:3".data).handle_cmd
        (fun s => s) 0 "MUSIC:ABCDEFGHIJKLMNO|x".data).scroll_top =
      "ABCDEFGHIJKLMNO".data ∧
    'O'.toNat = 79 ∧
    ¬ 79 ∈ ((LcdState.init.handle_cmd (fun s => s) 0
        "MODE:3".data).handle_cmd (fun s => s) 0
        "MUSIC:ABCDEFGHIJKLMNO|x".data).ddram.getD 0 [] ∧
    ¬ 79 ∈ ((LcdState.init.handle_cmd (fun s => s) 0
        "MODE:3".data).handle_cmd (fun s => s) 0
        "MUSIC:ABCDEFGHIJKLMNO|x".data).ddram.getD 1 [] := by
  decide

theorem bool_not_true_of_false {b : Bool} (h : b = false) : ¬ b = true := by
  simp [h]

/-- C4 (amended): `MUSIC:<title>|<artist>` in MUSIC mode with no overlay
caches the sanitized title and artist, resets both scroll cursors to 0,
and renders the first 14 (not 15) characters of each, preceded by an icon
glyph and a space. -/
theorem music_cmd_renders_title_artist (ud : Str → Str) (now : Int)
    (s : LcdState) (body : Str)
    (hstrip : pyStrip ("MUSIC:".data ++ body) = "MUSIC:".data ++ body)
    (hmode : s.mode = "MUSIC".data) (hov : s.volume_overlay = false)
    (hdd : 1 < s.ddram.length) :
    (LcdState.handle_cmd ud now s ("MUSIC:".data ++ body)).scroll_top =
        sanitizedTitle ud body ∧
    (LcdState.handle_cmd ud now s ("MUSIC:".data ++ body)).scroll_bottom =
        sanitizedArtist ud body ∧
    (LcdState.handle_cmd ud now s ("MUSIC:".data ++ body)).scroll_i_top = 0 ∧
    (LcdState.handle_cmd ud now s ("MUSIC:".data ++ body)).scroll_i_bottom
        = 0 ∧
    (LcdState.handle_cmd ud now s ("MUSIC:".data ++ body)).ddram.getD 0 [] =
        iconRow 0 ((sanitizedTitle ud body).take 14) ∧
    (LcdState.handle_cmd ud now s ("MUSIC:".data ++ body)).ddram.getD 1 [] =
        iconRow 1 ((sanitizedArtist ud body).take 14) := by
  have key : LcdState.handle_cmd ud now s ("MUSIC:".data ++ body) =
      { s with scroll_top := sanitizedTitle ud body,
               scroll_bottom := sanitizedArtist ud body,
               scroll_i_top := 0, scroll_i_bottom := 0, last_scroll := now,
               ddram := (s.ddram.set 0
                   (iconRow 0 ((sanitizedTitle ud body).take 15))).set 1
                 (iconRow 1 ((sanitizedArtist ud body).take 15)) } := by
    unfold LcdState.handle_cmd
    rw [hstrip]
    simp only [LcdState.handle_cmd_stripped]
    rw [if_neg (bool_not_true_of_false
          (show ("MODE:".data.isPrefixOf ("MUSIC:".data ++ body)) = false
            from rfl)),
        if_neg (bool_not_true_of_false
          (show ("LIVE:".data.isPrefixOf ("MUSIC:".data ++ body)) = false
            from rfl)),
        if_neg (bool_not_true_of_false
          (show ("CLOCK:".data.isPrefixOf ("MUSIC:".data ++ body)) = false
            from rfl)),
        if_pos (isPrefixOf_append_self "MUSIC:".data body),
        if_pos ⟨hmode, hov⟩]
    rfl
  rw [key]
  refine ⟨rfl, rfl, rfl, rfl, ?_, ?_⟩
  · show ((s.ddram.set 0
        (iconRow 0 ((sanitizedTitle ud body).take 15))).set 1
        (iconRow 1 ((sanitizedArtist ud body).take 15))).getD 0 [] =
      iconRow 0 ((sanitizedTitle ud body).take 14)
    rw [getD_set_ne _ _ _ _ _ (by omega),
        getD_set_self _ _ _ _ (by omega), iconRow_take15]
  · show ((s.ddram.set 0
        (iconRow 0 ((sanitizedTitle ud body).take 15))).set 1
        (iconRow 1 ((sanitizedArtist ud body).take 15))).getD 1 [] =
      iconRow 1 ((sanitizedArtist ud body).take 14)
    rw [getD_set_self _ _ _ _ (by simpa using hdd), iconRow_take15]

/-- Witness for C4 (amended) at a concrete MUSIC-mode state. -/
theorem music_cmd_renders_title_artist_witness :
    (LcdState.handle_cmd (fun s => s) 0 LcdState.init.enter_music
        ("MUSIC:".data ++ "Song|Artist".data)).scroll_top =
      sanitizedTitle (fun s => s) "Song|Artist".data ∧
    (LcdState.handle_cmd (fun s => s) 0 LcdState.init.enter_music
        ("MUSIC:".data ++ "Song|Artist".data)).scroll_bottom =
      sanitizedArtist (fun s => s) "Song|Artist".data ∧
    (LcdState.handle_cmd (fun s => s) 0 LcdState.init.enter_music
        ("MUSIC:".data ++ "Song|Artist".data)).scroll_i_top = 0 ∧
    (LcdState.handle_cmd (fun s => s) 0 LcdState.init.enter_music
        ("MUSIC:".data ++ "Song|Artist".data)).scroll_i_bottom = 0 ∧
    (LcdState.handle_cmd (fun s => s) 0 LcdState.init.enter_music
        ("MUSIC:".data ++ "Song|Artist".data)).ddram.getD 0 [] =
      iconRow 0 ((sanitizedTitle (fun s => s) "Song|Artist".data).take 14) ∧
    (LcdState.handle_cmd (fun s => s) 0 LcdState.init.enter_music
        ("MUSIC:".data ++ "Song|Artist".data)).ddram.getD 1 [] =
      iconRow 1 ((sanitizedArtist (fun s => s) "Song|Artist".data).take 14)
    :=
  music_cmd_renders_title_artist (fun s => s) 0 LcdState.init.enter_music
    "Song|Artist".data (by decide) (by decide) (by decide) (by decide)

/-- C3 counterexample: `MUSIC:` received while the emulator is in VISIT
mode still mutates the state (the scroll caches and cursors are updated
unconditionally), so mode-specific commands in a non-matching mode do not
always leave the `LcdState` unchanged. -/
theorem music_cmd_mutates_in_wrong_mode :
    LcdState.init.mode = "VISIT".data ∧
    (LcdState.init.handle_cmd (fun s => s) 0
        "MUSIC:abc|def".data).scroll_top = "abc".data ∧
    LcdState.init.handle_cmd (fun s => s) 0 "MUSIC:abc|def".data ≠
      LcdState.init := by
  decide

/-- C3 (amended): `LIVE:`, `CLOCK:` and `TEXT:` commands received in a
non-matching mode leave the state entirely unchanged; a `MUSIC:` command
in a non-matching mode leaves the display (ddram, cgram, mode, overlay,
animation state) unchanged but still rewrites the scroll caches, resets
both scroll cursors and refreshes the scroll timestamp. -/
theorem mode_specific_cmds_spec (ud : Str → Str) (now : Int) (s : LcdState)
    (cmd : Str) :
    ("LIVE:".data.isPrefixOf (pyStrip cmd) = true →
      ¬ s.mode = "VISIT".data → LcdState.handle_cmd ud now s cmd = s) ∧
    ("CLOCK:".data.isPrefixOf (pyStrip cmd) = true →
      ¬ s.mode = "CLOCK".data → LcdState.handle_cmd ud now s cmd = s) ∧
    ("TEXT:".data.isPrefixOf (pyStrip cmd) = true →
      ¬ s.mode = "TEXT".data → LcdState.handle_cmd ud now s cmd = s) ∧
    (∀ body : Str, pyStrip cmd = "MUSIC:".data ++ body →
      ¬ s.mode = "MUSIC".data →
      LcdState.handle_cmd ud now s cmd =
        { s with scroll_top := sanitizedTitle ud body,
                 scroll_bottom := sanitizedArtist ud body,
                 scroll_i_top := 0, scroll_i_bottom := 0,
                 last_scroll := now }) := by
  refine ⟨?_, ?_, ?_, ?_⟩
  · intro hpre hmode
    obtain ⟨t, ht⟩ := isPrefixOf_exists hpre
    unfold LcdState.handle_cmd
    rw [ht]
    simp only [LcdState.handle_cmd_stripped]
    rw [if_neg (bool_not_true_of_false
          (show ("MODE:".data.isPrefixOf ("LIVE:".data ++ t)) = false
            from rfl)),
        if_pos (isPrefixOf_append_self "LIVE:".data t)]
    split
    · rw [if_neg hmode]
    · rfl
  · intro hpre hmode
    obtain ⟨t, ht⟩ := isPrefixOf_exists hpre
    unfold LcdState.handle_cmd
    rw [ht]
    simp only [LcdState.handle_cmd_stripped]
    rw [if_neg (bool_not_true_of_false
          (show ("MODE:".data.isPrefixOf ("CLOCK:".data ++ t)) = false
            from rfl)),
        if_neg (bool_not_true_of_false
          (show ("LIVE:".data.isPrefixOf ("CLOCK:".data ++ t)) = false
            from rfl)),
        if_pos (isPrefixOf_append_self "CLOCK:".data t),
        if_neg hmode]
  · intro hpre hmode
    obtain ⟨t, ht⟩ := isPrefixOf_exists hpre
    unfold LcdState.handle_cmd
    rw [ht]
    simp only [LcdState.handle_cmd_stripped]
    rw [if_neg (bool_not_true_of_false
          (show ("MODE:".data.isPrefixOf ("TEXT:".data ++ t)) = false
            from rfl)),
        if_neg (bool_not_true_of_false
          (show ("LIVE:".data.isPrefixOf ("TEXT:".data ++ t)) = false
            from rfl)),
        if_neg (bool_not_true_of_false
          (show ("CLOCK:".data.isPrefixOf ("TEXT:".data ++ t)) = false
            from rfl)),
        if_neg (bool_not_true_of_false
          (show ("MUSIC:".data.isPrefixOf ("TEXT:".data ++ t)) = false
            from rfl)),
        if_pos (isPrefixOf_append_self "TEXT:".data t),
        if_neg hmode]
  · intro body hb hmode
    unfold LcdState.handle_cmd
    rw [hb]
    simp only [LcdState.handle_cmd_stripped]
    rw [if_neg (bool_not_true_of_false
          (show ("MODE:".data.isPrefixOf ("MUSIC:".data ++ body)) = false
            from rfl)),
        if_neg (bool_not_true_of_false
          (show ("LIVE:".data.isPrefixOf ("MUSIC:".data ++ body)) = false
            from rfl)),
        if_neg (bool_not_true_of_false
          (show ("CLOCK:".data.isPrefixOf ("MUSIC:".data ++ body)) = false
            from rfl)),
        if_pos (isPrefixOf_append_self "MUSIC:".data body),
        if_neg (show ¬ _ from fun hc => hmode (And.left hc))]
    rfl

/-- Witness for C3 (amended): a `CLOCK:` command ignored in VISIT mode and
a `MUSIC:` command in VISIT mode that only touches the scroll caches. -/
theorem mode_specific_cmds_spec_witness :
    LcdState.handle_cmd (fun s => s) 0 LcdState.init "CLOCK:a|b".data =
      LcdState.init ∧
    LcdState.handle_cmd (fun s => s) 0 LcdState.init "MUSIC:abc|def".data =
      { LcdState.init with
          scroll_top := sanitizedTitle (fun s => s) "abc|def".data,
          scroll_bottom := sanitizedArtist (fun s => s) "abc|def".data,
          scroll_i_top := 0, scroll_i_bottom := 0, last_scroll := 0 } :=
  ⟨(mode_specific_cmds_spec (fun s => s) 0 LcdState.init
      "CLOCK:a|b".data).2.1 (by decide) (by decide),
   (mode_specific_cmds_spec (fun s => s) 0 LcdState.init
      "MUSIC:abc|def".data).2.2.2 "abc|def".data (by decide) (by decide)⟩

/-- C10: `handle_cmd` is a total function of the state and command (every
`except` in the source maps to a parse returning `none`); a `MODE:`
command whose argument does not parse as an integer or parses to a value
outside {1,3,4,5,7,8} leaves the state unchanged, and a command bearing
none of the recognized tags leaves the state unchanged. -/
theorem handle_cmd_total_spec (ud : Str → Str) (now : Int) (s : LcdState)
    (cmd : Str) :
    ((∀ tag ∈ ([ "MODE:".data, "LIVE:".data, "CLOCK:".data, "MUSIC:".data,
          "TEXT:".data, "VOL:".data ] : List Str),
        tag.isPrefixOf (pyStrip cmd) = false) →
      LcdState.handle_cmd ud now s cmd = s) ∧
    ("MODE:".data.isPrefixOf (pyStrip cmd) = true →
      (∀ m : Int, pyIntCore 10 ((pyStrip cmd).drop 5) = some m →
        ¬ m ∈ ([1, 3, 4, 5, 7, 8] : List Int)) →
      LcdState.handle_cmd ud now s cmd = s) := by
  constructor
  · intro h
    unfold LcdState.handle_cmd
    simp only [LcdState.handle_cmd_stripped]
    rw [if_neg (bool_not_true_of_false (h "MODE:".data (by simp))),
        if_neg (bool_not_true_of_false (h "LIVE:".data (by simp))),
        if_neg (bool_not_true_of_false (h "CLOCK:".data (by simp))),
        if_neg (bool_not_true_of_false (h "MUSIC:".data (by simp))),
        if_neg (bool_not_true_of_false (h "TEXT:".data (by simp))),
        if_neg (bool_not_true_of_false (h "VOL:".data (by simp)))]
  · intro hpre hbad
    obtain ⟨t, ht⟩ := isPrefixOf_exists hpre
    rw [ht] at hbad
    unfold LcdState.handle_cmd
    rw [ht]
    simp only [LcdState.handle_cmd_stripped]
    rw [if_pos (isPrefixOf_append_self "MODE:".data t)]
    split
    next m heq =>
      have hm := hbad m heq
      simp only [List.mem_cons, List.not_mem_nil, or_false, not_or] at hm
      obtain ⟨h1, h3, h4, h5, h7, h8⟩ := hm
      simp only [LcdState.set_mode_by_num, if_neg h1, if_neg h3, if_neg h4,
                 if_neg h5, if_neg h7, if_neg h8]
    next => rfl

/-- Witness for C10: an unrecognized command and a `MODE:` command with an
out-of-range argument, both at the initial state. -/
theorem handle_cmd_total_spec_witness :
    LcdState.handle_cmd (fun s => s) 0 LcdState.init "HELLO".data =
      LcdState.init ∧
    LcdState.handle_cmd (fun s => s) 0 LcdState.init "MODE:2".data =
      LcdState.init :=
  ⟨(handle_cmd_total_spec (fun s => s) 0 LcdState.init "HELLO".data).1
      (by decide),
   (handle_cmd_total_spec (fun s => s) 0 LcdState.init "MODE:2".data).2
      (by decide) (by decide)⟩

/-- C2 counterexample: in CLOCK mode, `VOL:42|Speakers` followed by a
`tick` after the 1.5 s (1500 ms) deadline clears the overlay flag but
does `not` restore the previous clock lines — the ddram still shows the
volume text, contradicting the claimed verbatim restoration. -/
theorem vol_overlay_not_restored_in_clock :
    ((((LcdState.init.handle_cmd (fun s => s) 0 "MODE:4".data).handle_cmd
        (fun s => s) 0 "CLOCK:12:34|2024-01-01".data).handle_cmd
        (fun s => s) 0 "VOL:42|Speakers".data).tick 2000).volume_overlay
      = false ∧
    ¬ ((((LcdState.init.handle_cmd (fun s => s) 0 "MODE:4".data).handle_cmd
        (fun s => s) 0 "CLOCK:12:34|2024-01-01".data).handle_cmd
        (fun s => s) 0 "VOL:42|Speakers".data).tick 2000).ddram =
      ((LcdState.init.handle_cmd (fun s => s) 0 "MODE:4".data).handle_cmd
        (fun s => s) 0 "CLOCK:12:34|2024-01-01".data).ddram := by
  decide

theorem tick_anim_skip (s : LcdState) (now : Int)
    (h : ¬ s.mode = "VISIT".data ∨ s.visit_anim_active = false) :
    s.tick_anim now = s := by
  unfold LcdState.tick_anim
  rw [if_neg]
  intro hc
  rcases h with h | h
  · exact h hc.1
  · rw [h] at hc
    exact Bool.false_ne_true hc.2

theorem tick_scroll_skip_mode (s : LcdState) (now : Int)
    (h : ¬ s.mode = "MUSIC".data) : s.tick_scroll now = s := by
  unfold LcdState.tick_scroll
  rw [if_neg (fun hc => h hc.1)]

theorem tick_scroll_skip_fresh (s : LcdState) (now : Int)
    (h : ¬ s.scroll_interval ≤ now - s.last_scroll) :
    s.tick_scroll now = s := by
  unfold LcdState.tick_scroll
  rw [if_neg h, ite_self]

/-- C2 (amended): `VOL:<pct>|<device>` immediately installs the volume
icon bank, sets the overlay flag with a deadline 1500 ms ahead, and
overlays `Volume: <pct>` / `<device>`; when a `tick` sees the expired
deadline it clears the overlay flag, but restoration is per-mode rather
than verbatim: in CLOCK (and any mode other than VISIT, MUSIC, SYSTEM)
nothing else happens — the ddram keeps the overlay text; in MUSIC the
icon bank and the first 14 characters of the cached title/artist are
redrawn from the start (scroll cursors are not reset); in VISIT the
header is redrawn from the cached counters and current animation step;
in SYSTEM only the glyph bank is restored. -/
theorem vol_overlay_spec :
    (∀ (ud : Str → Str) (now : Int) (s : LcdState) (body : Str),
      pyStrip ("VOL:".data ++ body) = "VOL:".data ++ body →
      1 < s.ddram.length →
      ((LcdState.handle_cmd ud now s ("VOL:".data ++ body)).volume_overlay
          = true ∧
       (LcdState.handle_cmd ud now s ("VOL:".data ++ body)).vol_until =
          now + 1500 ∧
       (LcdState.handle_cmd ud now s ("VOL:".data ++ body)).cgram =
          musicIconBank ∧
       (LcdState.handle_cmd ud now s ("VOL:".data ++ body)).ddram.getD 0 []
          = iconRow 2 ("Volume: ".data ++ (volParts ud body).1) ∧
       (LcdState.handle_cmd ud now s ("VOL:".data ++ body)).ddram.getD 1 []
          = iconRow 3 (volParts ud body).2)) ∧
    (∀ (s : LcdState) (now : Int),
      s.volume_overlay = true → ¬ s.vol_until = 0 → s.vol_until ≤ now →
      ¬ s.mode = "VISIT".data → ¬ s.mode = "MUSIC".data →
      ¬ s.mode = "SYSTEM".data →
      s.tick now = { s with volume_overlay := false }) ∧
    (∀ (s : LcdState) (now : Int),
      s.volume_overlay = true → ¬ s.vol_until = 0 → s.vol_until ≤ now →
      s.mode = "MUSIC".data → 0 < s.scroll_interval →
      s.tick now =
        { s with volume_overlay := false, cgram := musicIconBank,
                 ddram := (s.ddram.set 0
                     (iconRow 0 (s.scroll_top.take 14))).set 1
                   (iconRow 1 (s.scroll_bottom.take 14)),
                 last_scroll := now }) ∧
    (∀ (s : LcdState) (now : Int),
      s.volume_overlay = true → ¬ s.vol_until = 0 → s.vol_until ≤ now →
      s.mode = "VISIT".data → s.visit_anim_active = false →
      s.tick now =
        setDdram (LcdState.draw_visit_header_counts
            { s with volume_overlay := false, cgram := visitBarBank }
            s.last_visit_astro s.last_visit_core) 1 15 s.box_step) ∧
    (∀ (s : LcdState) (now : Int),
      s.volume_overlay = true → ¬ s.vol_until = 0 → s.vol_until ≤ now →
      s.mode = "SYSTEM".data →
      s.tick now = { s with volume_overlay := false,
                            cgram := systemIconBank }) := by
  refine ⟨?_, ?_, ?_, ?_, ?_⟩
  · intro ud now s body hstrip hdd
    have key : LcdState.handle_cmd ud now s ("VOL:".data ++ body) =
        { s with cgram := musicIconBank, volume_overlay := true,
                 vol_until := now + 1500,
                 ddram := (s.ddram.set 0
                     (iconRow 2 ("Volume: ".data ++ (volParts ud body).1))).set
                   1 (iconRow 3 (volParts ud body).2) } := by
      unfold LcdState.handle_cmd
      rw [hstrip]
      simp only [LcdState.handle_cmd_stripped]
      rw [if_neg (bool_not_true_of_false
            (show ("MODE:".data.isPrefixOf ("VOL:".data ++ body)) = false
              from rfl)),
          if_neg (bool_not_true_of_false
            (show ("LIVE:".data.isPrefixOf ("VOL:".data ++ body)) = false
              from rfl)),
          if_neg (bool_not_true_of_false
            (show ("CLOCK:".data.isPrefixOf ("VOL:".data ++ body)) = false
              from rfl)),
          if_neg (bool_not_true_of_false
            (show ("MUSIC:".data.isPrefixOf ("VOL:".data ++ body)) = false
              from rfl)),
          if_neg (bool_not_true_of_false
            (show ("TEXT:".data.isPrefixOf ("VOL:".data ++ body)) = false
              from rfl)),
          if_pos (isPrefixOf_append_self "VOL:".data body)]
      rfl
    rw [key]
    refine ⟨rfl, rfl, rfl, ?_, ?_⟩
    · show ((s.ddram.set 0
          (iconRow 2 ("Volume: ".data ++ (volParts ud body).1))).set 1
          (iconRow 3 (volParts ud body).2)).getD 0 [] =
        iconRow 2 ("Volume: ".data ++ (volParts ud body).1)
      rw [getD_set_ne _ _ _ _ _ (by omega),
          getD_set_self _ _ _ _ (by omega)]
    · show ((s.ddram.set 0
          (iconRow 2 ("Volume: ".data ++ (volParts ud body).1))).set 1
          (iconRow 3 (volParts ud body).2)).getD 1 [] =
        iconRow 3 (volParts ud body).2
      rw [getD_set_self _ _ _ _ (by simpa using hdd)]
  · intro s now h1 h2 h3 hv hm hsy
    have hov : s.tick_overlay now = { s with volume_overlay := false } := by
      simp only [LcdState.tick_overlay]
      rw [if_pos ⟨h1, h2, h3⟩, if_neg hv, if_neg hm, if_neg hsy]
    show ((s.tick_overlay now).tick_anim now).tick_scroll now = _
    rw [hov, tick_anim_skip, tick_scroll_skip_mode]
    all_goals first | exact Or.inl hv | exact hm
  · intro s now h1 h2 h3 hm hsi
    have hvne : ¬ s.mode = "VISIT".data := by
      rw [hm]; decide
    have hov : s.tick_overlay now =
        { s with volume_overlay := false, cgram := musicIconBank,
                 ddram := (s.ddram.set 0
                     (iconRow 0 (s.scroll_top.take 14))).set 1
                   (iconRow 1 (s.scroll_bottom.take 14)),
                 last_scroll := now } := by
      simp only [LcdState.tick_overlay]
      rw [if_pos ⟨h1, h2, h3⟩, if_neg hvne, if_pos hm]
      rfl
    have hfresh : ¬ s.scroll_interval ≤ now - now := by
      rw [sub_self]
      exact not_le.mpr hsi
    show ((s.tick_overlay now).tick_anim now).tick_scroll now = _
    rw [hov, tick_anim_skip, tick_scroll_skip_fresh]
    all_goals first | exact Or.inl hvne | exact hfresh
  · intro s now h1 h2 h3 hm ha
    have hmne : ¬ s.mode = "MUSIC".data := by
      rw [hm]; decide
    have hov : s.tick_overlay now =
        setDdram (LcdState.draw_visit_header_counts
            { s with volume_overlay := false, cgram := visitBarBank }
            s.last_visit_astro s.last_visit_core) 1 15 s.box_step := by
      simp only [LcdState.tick_overlay]
      rw [if_pos ⟨h1, h2, h3⟩, if_pos hm]
      rfl
    show ((s.tick_overlay now).tick_anim now).tick_scroll now = _
    rw [hov, tick_anim_skip, tick_scroll_skip_mode]
    all_goals first | exact Or.inr ha | exact hmne
  · intro s now h1 h2 h3 hm
    have hvne : ¬ s.mode = "VISIT".data := by
      rw [hm]; decide
    have hmne : ¬ s.mode = "MUSIC".data := by
      rw [hm]; decide
    have hov : s.tick_overlay now =
        { s with volume_overlay := false, cgram := systemIconBank } := by
      simp only [LcdState.tick_overlay]
      rw [if_pos ⟨h1, h2, h3⟩, if_neg hvne, if_neg hmne, if_pos hm]
    show ((s.tick_overlay now).tick_anim now).tick_scroll now = _
    rw [hov, tick_anim_skip, tick_scroll_skip_mode]
    all_goals first | exact Or.inl hvne | exact hmne

/-- Witness for C2 (amended): a concrete `VOL:` overlay in CLOCK mode and
a concrete expiry tick that only clears the flag. -/
theorem vol_overlay_spec_witness :
    ((LcdState.handle_cmd (fun s => s) 0 LcdState.init.enter_clock
        ("VOL:".data ++ "42|Speakers".data)).volume_overlay = true ∧
     (LcdState.handle_cmd (fun s => s) 0 LcdState.init.enter_clock
        ("VOL:".data ++ "42|Speakers".data)).vol_until = 0 + 1500 ∧
     (LcdState.handle_cmd (fun s => s) 0 LcdState.init.enter_clock
        ("VOL:".data ++ "42|Speakers".data)).cgram = musicIconBank ∧
     (LcdState.handle_cmd (fun s => s) 0 LcdState.init.enter_clock
        ("VOL:".data ++ "42|Speakers".data)).ddram.getD 0 [] =
       iconRow 2 ("Volume: ".data ++
         (volParts (fun s => s) "42|Speakers".data).1) ∧
     (LcdState.handle_cmd (fun s => s) 0 LcdState.init.enter_clock
        ("VOL:".data ++ "42|Speakers".data)).ddram.getD 1 [] =
       iconRow 3 (volParts (fun s => s) "42|Speakers".data).2) ∧
    LcdState.tick
      { LcdState.init with
          mode := "CLOCK".data, volume_overlay := true,
          vol_until := 1500 } 2000 =
      { { LcdState.init with
            mode := "CLOCK".data, volume_overlay := true,
            vol_until := 1500 } with
          volume_overlay := false } :=
  ⟨vol_overlay_spec.1 (fun s => s) 0 LcdState.init.enter_clock
      "42|Speakers".data (by decide) (by decide),
   vol_overlay_spec.2.1 _ 2000 (by decide) (by decide) (by decide)
      (by decide) (by decide) (by decide)⟩
